import Mathlib

/-!
Verification of `src/docker/snapshot-builder/metrics-server.py`.

The program keeps a single in-memory status record (`SnapshotMetrics`),
renders it as a Prometheus text exposition (`get_metrics`), and applies
JSON updates posted to `/update` (`MetricsHandler.do_POST`).

Shallow embedding notes:
* Parsed JSON values (the output of `json.loads`) are modelled by the
  inductive `Json`; its `num` constructor carries `Int` (float payloads
  are out of scope for every claim considered here).  An `obj` node
  models the already-constructed Python dict, with duplicate keys
  resolved by the parser.
* The store fields that Python assigns dynamically (`status`,
  `current_operation`, `progress_percent`, `bytes_processed`,
  `last_error`) are `Json`-typed, because `do_POST` stores whatever
  value the request carried.  The two counters are only ever touched by
  the `+= 1` methods, hence `Nat`.
* `start_time` / wall-clock reads are kept outside the store: the
  renderer takes the already-formatted `str(time.time() - start_time)`
  as an opaque `String` argument (floating point is not modelled).
* Line 68 of the source interpolates the status gauge inside an
  f-string as `{{"running": 1, "stopped": 0, "error": 2}.get(self.status, 0)}`.
  Because `{{` is the literal-brace escape of Python f-strings, the
  remaining single `}` makes the whole file a SyntaxError (checked on
  CPython: "f-string: single '}' is not allowed").  `fstringTextOk`
  below models that brace rule and the rejection is proved; everywhere
  else the renderer embeds the evident intent of that line, documented
  two lines above it in the source
  ("Current status of the builder (0=stopped, 1=running, 2=error)"),
  as `statusValue`.
-/

/-- A parsed JSON value, as produced by `json.loads`. -/
inductive Json where
  | null : Json
  | bool : Bool → Json
  | num : Int → Json
  | str : String → Json
  | arr : List Json → Json
  | obj : List (String × Json) → Json

/-- Python truthiness (`if x:`) of a parsed JSON value:
`None`, `False`, `0`, `""`, `[]`, `{}` are falsy, everything else truthy. -/
def truthy : Json → Bool
  | Json.null => false
  | Json.bool b => b
  | Json.num n => n != 0
  | Json.str s => s != ""
  | Json.arr xs => !xs.isEmpty
  | Json.obj kvs => !kvs.isEmpty

mutual
/-- Python `repr` of a parsed JSON value (used by `str` on lists/dicts).
String escaping inside `repr` is simplified to the common case of
quoting with single quotes; no claim evaluates this branch. -/
def pyRepr : Json → String
  | Json.null => "None"
  | Json.bool true => "True"
  | Json.bool false => "False"
  | Json.num n => toString n
  | Json.str s => "\x27" ++ s ++ "\x27"
  | Json.arr xs => "[" ++ pyReprSep xs ++ "]"
  | Json.obj kvs => "\x7b" ++ pyReprPairs kvs ++ "\x7d"

/-- Comma-separated `repr` of list elements. -/
def pyReprSep : List Json → String
  | [] => ""
  | [x] => pyRepr x
  | x :: xs => pyRepr x ++ ", " ++ pyReprSep xs

/-- Comma-separated `repr` of dict items. -/
def pyReprPairs : List (String × Json) → String
  | [] => ""
  | [(k, v)] => "\x27" ++ k ++ "\x27: " ++ pyRepr v
  | (k, v) :: kvs => "\x27" ++ k ++ "\x27: " ++ pyRepr v ++ ", " ++ pyReprPairs kvs
end

/-- Python `str()` applied to a parsed JSON value, as the f-string
interpolations of `get_metrics` do. -/
def pyStr : Json → String
  | Json.null => "None"
  | Json.bool true => "True"
  | Json.bool false => "False"
  | Json.num n => toString n
  | Json.str s => s
  | Json.arr xs => pyRepr (Json.arr xs)
  | Json.obj kvs => pyRepr (Json.obj kvs)

/-- Python `type(x).__name__` for a parsed JSON value (used in the
`AttributeError` message raised by `data.get` on a non-dict). -/
def pyTypeName : Json → String
  | Json.null => "NoneType"
  | Json.bool _ => "bool"
  | Json.num _ => "int"
  | Json.str _ => "str"
  | Json.arr _ => "list"
  | Json.obj _ => "dict"

/-- The mutable record of `SnapshotMetrics` (minus `start_time` and the
lock; see the header).  Field names follow the source. -/
structure Store where
  status : Json
  current_operation : Json
  progress_percent : Json
  bytes_processed : Json
  snapshots_created : Nat
  snapshots_cleaned : Nat
  last_error : Json

/-- `SnapshotMetrics.__init__`: status "running", operation
"initializing", numeric fields zero, empty last error. -/
def initialStore : Store :=
  { status := Json.str "running"
    current_operation := Json.str "initializing"
    progress_percent := Json.num 0
    bytes_processed := Json.num 0
    snapshots_created := 0
    snapshots_cleaned := 0
    last_error := Json.str "" }

/-- `SnapshotMetrics.update_status(status, operation="", progress=None,
bytes_processed=None)`: `self.status = status` unconditionally; the
other three fields only under their guards (`if operation:`,
`if progress is not None:`, `if bytes_processed is not None:`). -/
def update_status (self : Store) (status operation : Json)
    (progress bytes_processed : Option Json) : Store :=
  { self with
    status := status
    current_operation := if truthy operation then operation else self.current_operation
    progress_percent := match progress with
      | some p => p
      | none => self.progress_percent
    bytes_processed := match bytes_processed with
      | some b => b
      | none => self.bytes_processed }

/-- `SnapshotMetrics.increment_snapshots_created`. -/
def increment_snapshots_created (self : Store) : Store :=
  { self with snapshots_created := self.snapshots_created + 1 }

/-- `SnapshotMetrics.increment_snapshots_cleaned`. -/
def increment_snapshots_cleaned (self : Store) : Store :=
  { self with snapshots_cleaned := self.snapshots_cleaned + 1 }

/-- `SnapshotMetrics.set_error`. -/
def set_error (self : Store) (e : Json) : Store :=
  { self with last_error := e }

/-- The three environment variables `get_metrics` reads through
`os.environ.get(...)`; `none` models an unset variable. -/
structure Env where
  pod_name : Option String
  pod_namespace : Option String
  ethereum_network : Option String

/-- Intended value of source line 68, documented by the HELP line of the
same block: `{"running": 1, "stopped": 0, "error": 2}.get(self.status, 0)`.
A dict lookup with a non-key (any other value) returning the default 0. -/
def statusValue : Json → Nat
  | Json.str "running" => 1
  | Json.str "stopped" => 0
  | Json.str "error" => 2
  | _ => 0

/-- Block 1 of the `get_metrics` template: `snapshot_builder_info`,
labels read from `os.environ` inside `get_metrics` (defaulting to
"unknown"). -/
def info_block (e : Env) : String :=
  "# HELP snapshot_builder_info Information about the snapshot builder\n# TYPE snapshot_builder_info gauge\nsnapshot_builder_info\x7bpod=\"" ++
    e.pod_name.getD "unknown" ++ "\",namespace=\"" ++
    e.pod_namespace.getD "unknown" ++ "\",network=\"" ++
    e.ethereum_network.getD "unknown" ++ "\"\x7d 1"

/-- Block 2: `snapshot_builder_uptime_seconds`; `u` stands for
`str(time.time() - self.start_time)`. -/
def uptime_block (u : String) : String :=
  "# HELP snapshot_builder_uptime_seconds Uptime of the snapshot builder in seconds\n# TYPE snapshot_builder_uptime_seconds counter\nsnapshot_builder_uptime_seconds " ++ u

/-- Block 3: `snapshot_builder_status`, with the value of the intended
dict lookup of source line 68 (see header and `C1_status_line_rejected`). -/
def status_block (st : Store) : String :=
  "# HELP snapshot_builder_status Current status of the builder (0=stopped, 1=running, 2=error)\n# TYPE snapshot_builder_status gauge\nsnapshot_builder_status " ++
    toString (statusValue st.status)

/-- Block 4: `snapshot_builder_progress_percent`, raw interpolation. -/
def progress_block (st : Store) : String :=
  "# HELP snapshot_builder_progress_percent Current operation progress percentage\n# TYPE snapshot_builder_progress_percent gauge\nsnapshot_builder_progress_percent " ++
    pyStr st.progress_percent

/-- Block 5: `snapshot_builder_bytes_processed_total`, raw interpolation. -/
def bytes_block (st : Store) : String :=
  "# HELP snapshot_builder_bytes_processed_total Total bytes processed\n# TYPE snapshot_builder_bytes_processed_total counter\nsnapshot_builder_bytes_processed_total " ++
    pyStr st.bytes_processed

/-- Block 6: `snapshot_builder_snapshots_created_total`. -/
def created_block (st : Store) : String :=
  "# HELP snapshot_builder_snapshots_created_total Total snapshots created\n# TYPE snapshot_builder_snapshots_created_total counter\nsnapshot_builder_snapshots_created_total " ++
    toString st.snapshots_created

/-- Block 7: `snapshot_builder_snapshots_cleaned_total`. -/
def cleaned_block (st : Store) : String :=
  "# HELP snapshot_builder_snapshots_cleaned_total Total snapshots cleaned up\n# TYPE snapshot_builder_snapshots_cleaned_total counter\nsnapshot_builder_snapshots_cleaned_total " ++
    toString st.snapshots_cleaned

/-- Block 8: `snapshot_builder_last_operation_info`. -/
def operation_block (st : Store) : String :=
  "# HELP snapshot_builder_last_operation_info Information about the current/last operation\n# TYPE snapshot_builder_last_operation_info gauge\nsnapshot_builder_last_operation_info\x7boperation=\"" ++
    pyStr st.current_operation ++ "\"\x7d 1"

/-- The conditional trailer appended by `metrics += f"""..."""` when
`self.last_error` is truthy; leading newline from the opening of that
second f-string literal. -/
def error_block (st : Store) : String :=
  "\n# HELP snapshot_builder_last_error_info Information about the last error\n# TYPE snapshot_builder_last_error_info gauge\nsnapshot_builder_last_error_info\x7berror=\"" ++
    pyStr st.last_error ++ "\"\x7d 1\n"

/-- The first f-string of `get_metrics` (the eight unconditional
blocks, blank-line separated, final newline before the closing
quotes).  Concatenating the chunks reproduces the source template
byte for byte, with line 68 replaced by its intended value. -/
def base_metrics (e : Env) (u : String) (st : Store) : String :=
  info_block e ++ "\n\n" ++ uptime_block u ++ "\n\n" ++ status_block st ++ "\n\n" ++
    progress_block st ++ "\n\n" ++ bytes_block st ++ "\n\n" ++ created_block st ++ "\n\n" ++
    cleaned_block st ++ "\n\n" ++ operation_block st ++ "\n"

/-- `SnapshotMetrics.get_metrics`: the base template, plus the error
trailer appended under `if self.last_error:`. -/
def get_metrics (e : Env) (u : String) (st : Store) : String :=
  if truthy st.last_error then base_metrics e u st ++ error_block st
  else base_metrics e u st

/-- `t` contains `line` as a full line, with a newline on each side. -/
def hasLine (t line : String) : Prop :=
  ∃ p q, t = p ++ "\n" ++ line ++ "\n" ++ q

mutual
/-- Literal-text scanner for Python f-strings: `{{` and `}}` are
escapes, a single `{` opens a replacement field, a single `}` in text
position is rejected ("f-string: single '}' is not allowed"). -/
def scanText : List Char → Bool
  | [] => true
  | '\x7b' :: '\x7b' :: rest => scanText rest
  | '\x7d' :: '\x7d' :: rest => scanText rest
  | '\x7b' :: rest => scanExpr rest
  | '\x7d' :: _ => false
  | _ :: rest => scanText rest

/-- Inside a replacement field: consume up to the closing `}`;
an unterminated field is rejected. -/
def scanExpr : List Char → Bool
  | [] => false
  | '\x7d' :: rest => scanText rest
  | _ :: rest => scanExpr rest
end

/-- Source line 68, exactly as written in `metrics-server.py` (braces
escaped here as `\x7b`/`\x7d`). -/
def status_line_src : String :=
  "snapshot_builder_status \x7b\x7b\"running\": 1, \"stopped\": 0, \"error\": 2\x7d.get(self.status, 0)\x7d"

/-- `dict.get(k)` on the parsed JSON dict: `none` when the key is
absent (Python returns `None`). -/
def dGet (kvs : List (String × Json)) (k : String) : Option Json :=
  match kvs with
  | [] => none
  | (k2, v) :: rest => if k2 = k then some v else dGet rest k

/-- `dict.get(k, d)`: the stored value when present, else the default. -/
def dGetD (kvs : List (String × Json)) (k : String) (d : Json) : Json :=
  (dGet kvs k).getD d

/-- `data[k]` on the parsed dict: `KeyError` (whose `str` is the
repr of the key) when absent. -/
def getItem (kvs : List (String × Json)) (k : String) : Except String Json :=
  match dGet kvs k with
  | some v => Except.ok v
  | none => Except.error ("\x27" ++ k ++ "\x27")

/-- Collapse a looked-up JSON `null` to Python `None`: `data.get(k)`
yields `None` both when `k` is absent and when its value is null, and
`update_status` tests `is not None`. -/
def pyOpt : Option Json → Option Json
  | some Json.null => none
  | o => o

/-- Hex digit (lowercase), for the `\uXXXX` escapes of `json.dumps`. -/
def hexDigit (n : Nat) : Char :=
  if n < 10 then Char.ofNat (48 + n) else Char.ofNat (87 + n)

/-- Four lowercase hex digits. -/
def hex4 (n : Nat) : String :=
  String.mk [hexDigit (n / 4096 % 16), hexDigit (n / 256 % 16),
    hexDigit (n / 16 % 16), hexDigit (n % 16)]

/-- Escaping of one character inside a `json.dumps` string literal
(default `ensure_ascii=True`): the two mandatory escapes, the short
control escapes, `\uXXXX` for other control or non-ASCII characters
(surrogate pairs above the BMP), the character itself otherwise. -/
def jsonEscapeChar (c : Char) : String :=
  if c = '"' then "\\\""
  else if c = '\\' then "\\\\"
  else if c = '\n' then "\\n"
  else if c = '\r' then "\\r"
  else if c = '\t' then "\\t"
  else if c.toNat = 8 then "\\b"
  else if c.toNat = 12 then "\\f"
  else if c.toNat < 32 || c.toNat > 126 then
    if c.toNat < 65536 then "\\u" ++ hex4 c.toNat
    else "\\u" ++ hex4 (55296 + (c.toNat - 65536) / 1024) ++
      "\\u" ++ hex4 (56320 + (c.toNat - 65536) % 1024)
  else String.singleton c

/-- `json.dumps` of a Python string. -/
def jsonDumpString (s : String) : String :=
  "\"" ++ String.join (s.data.map jsonEscapeChar) ++ "\""

/-- `json.dumps({"error": str(e)})`, the 400 response body. -/
def errorBody (msg : String) : String :=
  "\x7b\"error\": " ++ jsonDumpString msg ++ "\x7d"

/-- The literal 200 response body `b'{"status": "updated"}'`. -/
def okBody : String := "\x7b\"status\": \"updated\"\x7d"

/-- The body of the `try:` block of `MetricsHandler.do_POST` once
`json.loads` has produced `data`, applied to the store.  Returns the
store as left by the block together with `some message` when a Python
exception escapes it:
* on a dict, the four `data.get` reads feed `update_status`, the two
  truthiness-guarded counter increments run, and `set_error(data['error'])`
  runs under `if data.get('error'):` (the `data['error']` item access
  is modelled as the fallible `getItem`);
* on any non-dict, the very first `data.get` raises `AttributeError`
  before any store field is touched. -/
def applyUpdate (data : Json) (st : Store) : Store × Option String :=
  match data with
  | Json.obj kvs =>
    let st1 := update_status st (dGetD kvs "status" st.status)
      (dGetD kvs "operation" (Json.str ""))
      (pyOpt (dGet kvs "progress")) (pyOpt (dGet kvs "bytes_processed"))
    let st2 := if truthy (dGetD kvs "snapshots_created" Json.null) then
        increment_snapshots_created st1 else st1
    let st3 := if truthy (dGetD kvs "snapshots_cleaned" Json.null) then
        increment_snapshots_cleaned st2 else st2
    if truthy (dGetD kvs "error" Json.null) then
      match getItem kvs "error" with
      | Except.ok v => (set_error st3 v, none)
      | Except.error m => (st3, some m)
    else (st3, none)
  | d => (st, some ("\x27" ++ pyTypeName d ++ "\x27 object has no attribute \x27get\x27"))

/-- `MetricsHandler.do_POST` on path `/update`: the request body's
decode-and-parse outcome is the `Except` argument (`Except.error`
models `UnicodeDecodeError`/`JSONDecodeError`, carrying `str(e)`).
Result: final store, HTTP status code, response body. -/
def do_POST_update (body : Except String Json) (st : Store) : Store × Nat × String :=
  match body with
  | Except.error e => (st, 400, errorBody e)
  | Except.ok data =>
    match applyUpdate data st with
    | (st2, none) => (st2, 200, okBody)
    | (st2, some m) => (st2, 400, errorBody m)

/-- The `health_data` dict built by `do_GET` on `/health`, in insertion
order; `uptime` (a float) and `timestamp` are passed in opaquely. -/
def healthData (st : Store) (uptime : Json) (timestamp : String) : List (String × Json) :=
  [("status", st.status), ("uptime", uptime),
   ("current_operation", st.current_operation),
   ("progress", st.progress_percent), ("timestamp", Json.str timestamp)]

/-- The four mutating operations of `SnapshotMetrics` (the lock
serializes them; `get_metrics` does not mutate). -/
inductive StoreOp where
  | update (status operation : Json) (progress bytes_processed : Option Json) : StoreOp
  | incCreated : StoreOp
  | incCleaned : StoreOp
  | setErr (e : Json) : StoreOp

/-- Interpretation of a store operation. -/
def applyOp : StoreOp → Store → Store
  | StoreOp.update s o p b, st => update_status st s o p b
  | StoreOp.incCreated, st => increment_snapshots_created st
  | StoreOp.incCleaned, st => increment_snapshots_cleaned st
  | StoreOp.setErr e, st => set_error st e

/-- Is the parsed JSON value a dict? -/
def isObj : Json → Bool
  | Json.obj _ => true
  | _ => false

/-- A concrete environment, for counterexamples. -/
def envA : Env :=
  { pod_name := some "pod-a", pod_namespace := some "ns", ethereum_network := some "mainnet" }

/-- `envA` with a different `POD_NAME`. -/
def envB : Env :=
  { pod_name := some "pod-b", pod_namespace := some "ns", ethereum_network := some "mainnet" }

/-- A store whose `last_error` is the (truthy) number 1 — reachable by
posting `{"error": 1}`. -/
def stErrNum : Store := { initialStore with last_error := Json.num 1 }

/-- Blocks 2–8 of the exposition plus the conditional error trailer:
everything after the info block, which depends on the store and the
uptime but not on the environment. -/
def rest_metrics (u : String) (st : Store) : String :=
  uptime_block u ++ "\n\n" ++ status_block st ++ "\n\n" ++ progress_block st ++ "\n\n" ++
    bytes_block st ++ "\n\n" ++ created_block st ++ "\n\n" ++ cleaned_block st ++ "\n\n" ++
    operation_block st ++ "\n" ++ (if truthy st.last_error then error_block st else "")

theorem str_assoc (a b c : String) : a ++ b ++ c = a ++ (b ++ c) := by
  apply String.ext
  simp [String.data_append, List.append_assoc]

theorem str_append_empty (s : String) : s ++ "" = s := by
  apply String.ext
  simp [String.data_append]

theorem do_POST_fst (d : Json) (st : Store) :
    (do_POST_update (Except.ok d) st).1 = (applyUpdate d st).1 := by
  rcases h : applyUpdate d st with ⟨st2, e⟩
  cases e <;> simp [do_POST_update, h]

theorem applyUpdate_obj_err (kvs : List (String × Json)) (st : Store) :
    (applyUpdate (Json.obj kvs) st).2 = none := by
  unfold applyUpdate
  cases h : dGet kvs "error" with
  | none => simp [dGetD, h, truthy]
  | some v =>
    by_cases hv : truthy v
    · simp [dGetD, h, getItem, hv]
    · simp [dGetD, h, hv]

/-- C1: the spec says the rendered `/metrics` line assigns
`snapshot_builder_status` the value of the fixed lookup table
running↦1 / stopped↦0 / error↦2 with default 0, and the intended
lookup (`statusValue`) indeed does exactly that; but source line 68
writes the lookup inside an f-string behind a `{{` literal-brace
escape, leaving a single `}` that Python's f-string grammar rejects
(`scanText` models that rule), so the file is a SyntaxError and no
exposition is ever rendered. -/
theorem C1_status_line_rejected :
    scanText status_line_src.data = false
    ∧ statusValue (Json.str "running") = 1
    ∧ statusValue (Json.str "stopped") = 0
    ∧ statusValue (Json.str "error") = 2
    ∧ statusValue (Json.str "starting") = 0 := by
  exact ⟨by decide, rfl, rfl, rfl, rfl⟩

/-- C2 (amended): `update_status` always overwrites `status` with the
given argument (it is a required positional argument, so there is no
absent case, and an empty string is stored); `operation` overwrites
only when truthy (for strings: non-empty); `progress` and
`bytes_processed` only when not `None`; the other fields are never
touched; and the call is a no-op exactly in the sense that passing the
current status together with an empty operation and absent
progress/bytes leaves the store field-for-field identical. -/
theorem C2_update_status_semantics : ∀ (st : Store) (s o : Json) (p b : Option Json),
    (update_status st s o p b).status = s
    ∧ (update_status st s o p b).current_operation =
        (if truthy o then o else st.current_operation)
    ∧ (update_status st s o p b).progress_percent =
        (match p with | some v => v | none => st.progress_percent)
    ∧ (update_status st s o p b).bytes_processed =
        (match b with | some v => v | none => st.bytes_processed)
    ∧ (update_status st s o p b).snapshots_created = st.snapshots_created
    ∧ (update_status st s o p b).snapshots_cleaned = st.snapshots_cleaned
    ∧ (update_status st s o p b).last_error = st.last_error
    ∧ update_status st st.status (Json.str "") none none = st :=
  fun _ _ _ _ _ => ⟨rfl, rfl, rfl, rfl, rfl, rfl, rfl, rfl⟩

/-- C2 counterexample: calling `update_status` with empty status and
empty/absent other arguments is not a no-op — on the initial store
(status "running") it overwrites `status` with `""`. -/
theorem C2_counterexample :
    update_status initialStore (Json.str "") (Json.str "") none none ≠ initialStore := by
  intro h
  have h2 := congrArg Store.status h
  have h3 : Json.str "" = Json.str "running" := h2
  injection h3 with h4
  exact absurd h4 (by decide)

/-- C3: for a request body that fails to decode/parse as JSON, POST
`/update` answers 400 with body `json.dumps({"error": str(e)})`, and
every field of the store is unchanged. -/
theorem C3_unparsable_body : ∀ (m : String) (st : Store),
    (do_POST_update (Except.error m) st).2.1 = 400
    ∧ (do_POST_update (Except.error m) st).2.2 =
        "\x7b\"error\": " ++ jsonDumpString m ++ "\x7d"
    ∧ (do_POST_update (Except.error m) st).1.status = st.status
    ∧ (do_POST_update (Except.error m) st).1.current_operation = st.current_operation
    ∧ (do_POST_update (Except.error m) st).1.progress_percent = st.progress_percent
    ∧ (do_POST_update (Except.error m) st).1.bytes_processed = st.bytes_processed
    ∧ (do_POST_update (Except.error m) st).1.snapshots_created = st.snapshots_created
    ∧ (do_POST_update (Except.error m) st).1.snapshots_cleaned = st.snapshots_cleaned
    ∧ (do_POST_update (Except.error m) st).1.last_error = st.last_error :=
  fun _ _ => ⟨rfl, rfl, rfl, rfl, rfl, rfl, rfl, rfl, rfl⟩

@[simp] theorem created_update_status (st : Store) (s o : Json) (p b : Option Json) :
    (update_status st s o p b).snapshots_created = st.snapshots_created := rfl

@[simp] theorem cleaned_update_status (st : Store) (s o : Json) (p b : Option Json) :
    (update_status st s o p b).snapshots_cleaned = st.snapshots_cleaned := rfl

@[simp] theorem created_set_error (st : Store) (e : Json) :
    (set_error st e).snapshots_created = st.snapshots_created := rfl

@[simp] theorem cleaned_set_error (st : Store) (e : Json) :
    (set_error st e).snapshots_cleaned = st.snapshots_cleaned := rfl

@[simp] theorem created_inc_created (st : Store) :
    (increment_snapshots_created st).snapshots_created = st.snapshots_created + 1 := rfl

@[simp] theorem cleaned_inc_created (st : Store) :
    (increment_snapshots_created st).snapshots_cleaned = st.snapshots_cleaned := rfl

@[simp] theorem created_inc_cleaned (st : Store) :
    (increment_snapshots_cleaned st).snapshots_created = st.snapshots_created := rfl

@[simp] theorem cleaned_inc_cleaned (st : Store) :
    (increment_snapshots_cleaned st).snapshots_cleaned = st.snapshots_cleaned + 1 := rfl

theorem applyUpdate_counters (kvs : List (String × Json)) (st : Store) :
    (applyUpdate (Json.obj kvs) st).1.snapshots_created =
      st.snapshots_created +
        (if truthy (dGetD kvs "snapshots_created" Json.null) then 1 else 0)
    ∧ (applyUpdate (Json.obj kvs) st).1.snapshots_cleaned =
      st.snapshots_cleaned +
        (if truthy (dGetD kvs "snapshots_cleaned" Json.null) then 1 else 0) := by
  unfold applyUpdate
  constructor <;>
  · simp only [dGetD, getItem]
    repeat' split
    all_goals simp_all

/-- C4 (amended): the exposition is always exactly the eight blocks
info, uptime, status, progress, bytes, created, cleaned, last
operation, in that order and separated by blank lines, plus the
`snapshot_builder_last_error_info` block if and only if `last_error`
is truthy — which, whenever `last_error` holds a string, is exactly
that string being non-empty. -/
theorem C4_metric_blocks : ∀ (e : Env) (u : String) (st : Store),
    get_metrics e u st =
      info_block e ++ "\n\n" ++ uptime_block u ++ "\n\n" ++ status_block st ++ "\n\n" ++
        progress_block st ++ "\n\n" ++ bytes_block st ++ "\n\n" ++ created_block st ++ "\n\n" ++
        cleaned_block st ++ "\n\n" ++ operation_block st ++ "\n" ++
        (if truthy st.last_error then error_block st else "")
    ∧ (∀ s : String, truthy (Json.str s) = !(s == "")) := by
  intro e u st
  refine ⟨?_, fun s => rfl⟩
  by_cases h : truthy st.last_error <;>
    simp [get_metrics, base_metrics, h, str_append_empty, str_assoc]

/-- C4 counterexample: on a store whose `last_error` is the number 1
(reachable by posting `{"error": 1}`), the ninth block is rendered
although `last_error` is not a (non-empty) string, so "a 9th block if
and only if lastError is a non-empty string" fails as stated. -/
theorem C4_counterexample :
    get_metrics envA "0.0" stErrNum = base_metrics envA "0.0" stErrNum ++ error_block stErrNum
    ∧ ∀ s : String, stErrNum.last_error ≠ Json.str s := by
  refine ⟨rfl, fun s h => ?_⟩
  have h2 : Json.num 1 = Json.str s := h
  exact Json.noConfusion h2

/-- C5: a POSTed JSON object bumps `snapshots_created` by exactly 1
when the value under `"snapshots_created"` is Python-truthy and leaves
it unchanged otherwise (the value itself is never added); likewise for
`"snapshots_cleaned"`; in particular `{"snapshots_created": 0}` does
not increment. -/
theorem C5_counter_truthiness : ∀ (kvs : List (String × Json)) (st : Store),
    ((do_POST_update (Except.ok (Json.obj kvs)) st).1).snapshots_created =
      st.snapshots_created +
        (if truthy (dGetD kvs "snapshots_created" Json.null) then 1 else 0)
    ∧ ((do_POST_update (Except.ok (Json.obj kvs)) st).1).snapshots_cleaned =
      st.snapshots_cleaned +
        (if truthy (dGetD kvs "snapshots_cleaned" Json.null) then 1 else 0)
    ∧ ((do_POST_update (Except.ok (Json.obj [("snapshots_created", Json.num 0)])) st).1).snapshots_created
        = st.snapshots_created := by
  intro kvs st
  refine ⟨?_, ?_, rfl⟩
  · rw [do_POST_fst]; exact (applyUpdate_counters kvs st).1
  · rw [do_POST_fst]; exact (applyUpdate_counters kvs st).2

/-- C6: N sequential `increment_snapshots_created` calls (the lock
serializes concurrent callers) add exactly N to the counter, and no
store operation ever decreases either snapshot counter. -/
theorem C6_counters_monotone :
    (∀ (n : Nat) (st : Store),
      (Nat.iterate increment_snapshots_created n st).snapshots_created =
        st.snapshots_created + n)
    ∧ (∀ (op : StoreOp) (st : Store),
      st.snapshots_created ≤ (applyOp op st).snapshots_created
      ∧ st.snapshots_cleaned ≤ (applyOp op st).snapshots_cleaned) := by
  constructor
  · intro n
    induction n with
    | zero => intro st; rfl
    | succ k ih =>
      intro st
      have h2 : Nat.iterate increment_snapshots_created (k + 1) st
          = Nat.iterate increment_snapshots_created k (increment_snapshots_created st) := rfl
      rw [h2, ih (increment_snapshots_created st)]
      simp
      omega
  · intro op st
    cases op <;> exact ⟨by simp [applyOp], by simp [applyOp]⟩

theorem get_metrics_eq (e : Env) (u : String) (st : Store) :
    get_metrics e u st =
      base_metrics e u st ++ (if truthy st.last_error then error_block st else "") := by
  by_cases h : truthy st.last_error <;> simp [get_metrics, h, str_append_empty]

/-- C7: POST `/update` with body `{"progress": 42}` answers 200 and a
following GET `/metrics` renders the stored value raw, containing the
exact line `snapshot_builder_progress_percent 42`. -/
theorem C7_progress_roundtrip : ∀ (st : Store) (e : Env) (u : String),
    (do_POST_update (Except.ok (Json.obj [("progress", Json.num 42)])) st).2.1 = 200
    ∧ hasLine
        (get_metrics e u ((do_POST_update (Except.ok (Json.obj [("progress", Json.num 42)])) st).1))
        "snapshot_builder_progress_percent 42" := by
  intro st e u
  refine ⟨rfl, ?_⟩
  have hst : (do_POST_update (Except.ok (Json.obj [("progress", Json.num 42)])) st).1
      = { st with progress_percent := Json.num 42 } := rfl
  rw [hst, get_metrics_eq]
  refine ⟨info_block e ++ "\n\n" ++ uptime_block u ++ "\n\n" ++
    status_block { st with progress_percent := Json.num 42 } ++ "\n\n" ++
    "# HELP snapshot_builder_progress_percent Current operation progress percentage\n# TYPE snapshot_builder_progress_percent gauge",
    "\n" ++ bytes_block { st with progress_percent := Json.num 42 } ++ "\n\n" ++
      created_block { st with progress_percent := Json.num 42 } ++ "\n\n" ++
      cleaned_block { st with progress_percent := Json.num 42 } ++ "\n\n" ++
      operation_block { st with progress_percent := Json.num 42 } ++ "\n" ++
      (if truthy ({ st with progress_percent := Json.num 42 } : Store).last_error then
        error_block { st with progress_percent := Json.num 42 } else ""), ?_⟩
  simp only [base_metrics, progress_block, str_assoc]
  rfl

/-- C8 (amended): the `snapshot_builder_info` labels are read from the
process environment on every call to `get_metrics` (not once at
startup): the exposition always splits as the info block computed from
the environment current at request time, followed by a remainder that
does not depend on the environment at all. -/
theorem C8_info_from_current_env : ∀ (e : Env) (u : String) (st : Store),
    get_metrics e u st = info_block e ++ "\n\n" ++ rest_metrics u st := by
  intro e u st
  rw [get_metrics_eq]
  simp only [base_metrics, rest_metrics, str_assoc]

/-- C8 counterexample: two `/metrics` renders of the same store
snapshot and the same uptime differ when `POD_NAME` changed between
the requests, contradicting "the info line is identical even if the
... environment variables change". -/
theorem C8_counterexample :
    get_metrics envA "7" initialStore ≠ get_metrics envB "7" initialStore := by
  decide

/-- C9: POST `/update` answers 200 with `{"status": "updated"}` for
every body that parses as a JSON object — the exception path of the
handler is then unreachable (`applyUpdate` reports no exception) — and
answers 400 exactly for bodies that fail to decode/parse or parse to a
non-object, with the store unchanged in every 400 case. -/
theorem C9_update_dispatch : ∀ (st : Store),
    (∀ m, do_POST_update (Except.error m) st = (st, 400, errorBody m))
    ∧ (∀ kvs, (do_POST_update (Except.ok (Json.obj kvs)) st).2.1 = 200
        ∧ (do_POST_update (Except.ok (Json.obj kvs)) st).2.2 = okBody
        ∧ (applyUpdate (Json.obj kvs) st).2 = none)
    ∧ (∀ d, isObj d = false →
        do_POST_update (Except.ok d) st =
          (st, 400,
            errorBody ("\x27" ++ pyTypeName d ++ "\x27 object has no attribute \x27get\x27"))) := by
  intro st
  refine ⟨fun m => rfl, fun kvs => ?_, fun d hd => ?_⟩
  · have h := applyUpdate_obj_err kvs st
    rcases hr : applyUpdate (Json.obj kvs) st with ⟨st2, e⟩
    rw [hr] at h
    have h2 : e = none := h
    subst h2
    exact ⟨by simp [do_POST_update, hr], by simp [do_POST_update, hr], rfl⟩
  · cases d with
    | obj kvs => simp [isObj] at hd
    | null => rfl
    | bool b => rfl
    | num n => rfl
    | str s => rfl
    | arr xs => rfl

/-- C9 witness: a concrete non-object body (the JSON number 5) is
rejected with 400 and the `AttributeError` message, the store intact. -/
theorem C9_update_dispatch_witness :
    isObj (Json.num 5) = false
    ∧ do_POST_update (Except.ok (Json.num 5)) initialStore =
        (initialStore, 400, errorBody "\x27int\x27 object has no attribute \x27get\x27") :=
  ⟨rfl, (C9_update_dispatch initialStore).2.2 (Json.num 5) rfl⟩

/-- C10: POST `/update` with `{"status": ""}` stores the empty string
into `status` (the empty-string-means-no-change rule holds for
`operation` but not for `status`); the empty status then renders as
gauge 0 on `/metrics` (line `snapshot_builder_status 0`, under the
intended value of source line 68) and as `""` in the `/health`
payload. -/
theorem C10_empty_status_stored :
    ∀ (st : Store) (e : Env) (u : String) (uj : Json) (ts : String),
    ((do_POST_update (Except.ok (Json.obj [("status", Json.str "")])) st).1).status = Json.str ""
    ∧ statusValue ((do_POST_update (Except.ok (Json.obj [("status", Json.str "")])) st).1).status = 0
    ∧ hasLine
        (get_metrics e u ((do_POST_update (Except.ok (Json.obj [("status", Json.str "")])) st).1))
        "snapshot_builder_status 0"
    ∧ List.lookup "status"
        (healthData ((do_POST_update (Except.ok (Json.obj [("status", Json.str "")])) st).1) uj ts)
        = some (Json.str "")
    ∧ ((do_POST_update (Except.ok (Json.obj [("operation", Json.str "")])) st).1).current_operation
        = st.current_operation := by
  intro st e u uj ts
  refine ⟨rfl, rfl, ?_, rfl, rfl⟩
  have hst : (do_POST_update (Except.ok (Json.obj [("status", Json.str "")])) st).1
      = { st with status := Json.str "" } := rfl
  rw [hst, get_metrics_eq]
  refine ⟨info_block e ++ "\n\n" ++ uptime_block u ++ "\n\n" ++
    "# HELP snapshot_builder_status Current status of the builder (0=stopped, 1=running, 2=error)\n# TYPE snapshot_builder_status gauge",
    "\n" ++ progress_block { st with status := Json.str "" } ++ "\n\n" ++
      bytes_block { st with status := Json.str "" } ++ "\n\n" ++
      created_block { st with status := Json.str "" } ++ "\n\n" ++
      cleaned_block { st with status := Json.str "" } ++ "\n\n" ++
      operation_block { st with status := Json.str "" } ++ "\n" ++
      (if truthy ({ st with status := Json.str "" } : Store).last_error then
        error_block { st with status := Json.str "" } else ""), ?_⟩
  simp only [base_metrics, status_block, str_assoc]
  rfl

